import Mathlib

/-!
Verification of the lead-qualification pipeline of `linkedin_scraper.py`
(class `LinkedInJobScraper`): query rotation, post extraction, quality
scoring/filtering and the top-level run control flow, shallowly embedded
as executable Lean definitions.  Machine strings are `String`, Python
integers are `Nat` (every score increment in the source is non-negative),
and Python's `a in b` substring test on strings is `strIn`.
-/

/-- Substring test on lists of characters: `listContains n h` is `true` iff
`n` occurs as a contiguous infix of `h` (the empty list occurs in every
list).  This is the semantics of Python's `needle in haystack` for strings. -/
def listContains (needle : List Char) : List Char → Bool
  | [] => needle == []
  | c :: t => needle.isPrefixOf (c :: t) || listContains needle t

/-- Python's substring operator `needle in hay` on strings. -/
def strIn (needle hay : String) : Bool :=
  listContains needle.toList hay.toList

/-- Python's `str.lower()` (the texts handled by the scraper are ASCII):
lower every character. -/
def strLower (s : String) : String :=
  ⟨s.data.map Char.toLower⟩

/-- Python's / JavaScript's character slicing `s[:n]` / `substring(0, n)`:
the first `n` characters. -/
def strTake (s : String) (n : Nat) : String :=
  ⟨s.data.take n⟩

/-- JavaScript's `trim()`: strip whitespace from both ends. -/
def strTrim (s : String) : String :=
  ⟨((s.data.dropWhile Char.isWhitespace).reverse.dropWhile Char.isWhitespace).reverse⟩

/-- JavaScript's `href.split('?')[0]`: the part of the string before the
first `?` (the whole string when there is none). -/
def beforeQuestionMark (s : String) : String :=
  ⟨s.data.takeWhile fun c => c != '?'⟩

/-- One raw post record as produced by the `page.evaluate` JavaScript in
`search_posts` (fields `text`, `author`, `time`, `url`, `id`). -/
structure Post where
  text : String
  author : String
  time : String
  url : String
  id : String
deriving DecidableEq, Repr

/-- A quality lead: the post dict after `filter_quality_leads` has added the
three fields `quality_score`, `persona_matches` and `search_terms_found`
(source lines 234-236).  The original extraction fields live in `post`. -/
structure Lead where
  post : Post
  quality_score : Nat
  persona_matches : List String
  search_terms_found : List String
deriving DecidableEq, Repr

/-- `self.search_queries` (source lines 28-40): the four rotating query
variations. -/
def search_queries : List String :=
  ["(salesforce OR \"program manager\" OR \"release manager\" OR \"data strategy\" OR \"agile coach\" OR CDP OR martech OR \"business intelligence\" OR CRM OR \"digital transformation\") AND (contract OR freelance OR consultant OR \"looking for\" OR \"seeking\" OR \"need\" OR \"hiring\" OR \"project\" OR \"interim\") AND (remote OR europe OR EU OR \"work from home\" OR WFH)",
   "(\"salesforce architect\" OR \"program manager\" OR \"release manager\" OR \"CDP specialist\" OR \"agile coach\" OR \"BI manager\" OR \"data strategist\") AND (freelance OR contract OR consultant OR \"3-6 months\" OR \"6-12 months\" OR interim OR project) AND (remote OR \"remote work\" OR europe)",
   "(salesforce OR tableau OR \"marketing cloud\" OR \"service cloud\" OR agile OR scrum OR \"data analytics\" OR CDP OR martech) AND (\"looking for\" OR \"need a\" OR \"seeking\" OR hiring OR contract OR freelance OR consultant) AND (remote OR EU OR europe OR \"work from anywhere\")",
   "(salesforce OR \"program management\" OR \"release management\" OR \"agile transformation\" OR \"data strategy\") AND (pharma OR retail OR healthcare OR telecom OR \"life sciences\" OR fintech OR banking) AND (contract OR freelance OR consultant OR \"project basis\") AND (remote OR europe)"]

/-- `self.exclusions` (source lines 43-48): job-seeker exclusion phrases. -/
def exclusions : List String :=
  ["open to work", "opentowork", "looking for opportunities",
   "seeking new role", "job search", "career change",
   "actively looking", "available for hire", "seeking opportunities",
   "#opentowork", "jobseekers", "candidates", "seeking a position"]

/-- `self.persona_keywords` (source lines 51-62), in dict insertion order. -/
def persona_keywords : List (String × List String) :=
  [("martech_cdp", ["CDP", "customer data platform", "martech", "marketing cloud", "personalization"]),
   ("agile_coach", ["agile", "scrum", "transformation", "coaching", "scaled agile", "SAFe"]),
   ("service_cloud", ["service cloud", "case management", "field service", "customer service"]),
   ("program_manager", ["program manager", "project manager", "PMO", "portfolio management"]),
   ("bi_analytics", ["tableau", "business intelligence", "analytics", "einstein analytics", "CRM analytics"]),
   ("solution_architect", ["architect", "technical design", "integration", "API", "system design"]),
   ("release_manager", ["release", "deployment", "devops", "CI/CD", "change management"]),
   ("data_strategy", ["data strategy", "data governance", "data architecture", "MDM"]),
   ("transformation", ["digital transformation", "change management", "organizational change"]),
   ("industry_specific", ["pharma", "healthcare", "retail", "telecom", "financial services", "life sciences"])]

/-- `hiring_signals` (source lines 173-178). -/
def hiring_signals : List String :=
  ["hiring", "looking for", "seeking", "need", "opportunity",
   "position", "role", "join our team", "we are looking",
   "contract position", "freelance opportunity", "consultant needed",
   "project starts", "immediate start", "urgently need"]

/-- `quality_indicators` (source lines 181-186). -/
def quality_indicators : List String :=
  ["urgent", "asap", "start immediately", "competitive rate",
   "remote first", "flexible", "experienced", "senior",
   "3-6 months", "6-12 months", "interim", "transformation",
   "enterprise", "global", "multinational"]

/-- `location_indicators` (source lines 189-195).  Note that the entries
are transcribed exactly, including the upper-case entries `EU`, `WFH`,
`CET` and `GMT`. -/
def location_indicators : List String :=
  ["germany", "netherlands", "france", "spain", "italy",
   "poland", "sweden", "denmark", "austria", "belgium",
   "ireland", "portugal", "finland", "norway", "switzerland",
   "europe", "EU", "european union", "remote", "work from home",
   "WFH", "work from anywhere", "timezone", "CET", "GMT"]

/-- `industry_signals` (source lines 198-202). -/
def industry_signals : List String :=
  ["pharma", "pharmaceutical", "healthcare", "life sciences",
   "retail", "beauty", "cosmetics", "telecom", "telco",
   "financial services", "fintech", "banking", "insurance"]

/-- The contract/freelance boost terms (source line 226). -/
def boost_terms : List String := ["contract", "freelance", "consultant", "interim"]

/-- The immediate-availability boost terms (source line 230). -/
def immediacy_terms : List String := ["urgent", "asap", "immediately", "start soon"]

/-- `any(signal in text_lower for signal in hiring_signals)` (line 209). -/
def hiringHit (text_lower : String) : Bool :=
  hiring_signals.any fun s => strIn s text_lower

/-- `any(indicator in text_lower for indicator in quality_indicators)` (line 211). -/
def qualityHit (text_lower : String) : Bool :=
  quality_indicators.any fun s => strIn s text_lower

/-- `any(location in text_lower for location in location_indicators)` (line 213).
The member terms are tested verbatim against the lowered text, exactly as in
the source. -/
def locationHit (text_lower : String) : Bool :=
  location_indicators.any fun s => strIn s text_lower

/-- Variant of `locationHit` following the spec's words ("case-insensitive"
matching of member terms): each member term is lowered before the substring
test, as the source does for persona keywords.  Used only to compare the
spec's description against the code's behaviour. -/
def locationHitCaseInsensitive (text_lower : String) : Bool :=
  location_indicators.any fun s => strIn (strLower s) text_lower

/-- `any(industry in text_lower for industry in industry_signals)` (line 215). -/
def industryHit (text_lower : String) : Bool :=
  industry_signals.any fun s => strIn s text_lower

/-- `any(term in text_lower for term in ['contract', ...])` (line 226). -/
def boostHit (text_lower : String) : Bool :=
  boost_terms.any fun s => strIn s text_lower

/-- `any(term in text_lower for term in ['urgent', ...])` (line 230). -/
def immediacyHit (text_lower : String) : Bool :=
  immediacy_terms.any fun s => strIn s text_lower

/-- The persona loop (source lines 219-223): for each persona count the
keywords whose lowered form occurs in the text; a persona with a positive
count adds `2 * count` to the score and appends `"persona(count)"` to
`persona_matches`.  Returns (score contribution, persona_matches). -/
def personaFold (text_lower : String) : Nat × List String :=
  persona_keywords.foldl
    (fun acc pk =>
      let m := (pk.2.filter fun k => strIn (strLower k) text_lower).length
      if m > 0 then (acc.1 + m * 2, acc.2 ++ [pk.1 ++ "(" ++ toString m ++ ")"])
      else acc)
    (0, [])

/-- The raw additive score of `filter_quality_leads` (source lines 205-231):
base category weights 4/2/2/2, persona contribution, contract boost 2 and
immediacy boost 3. -/
def postScore (text_lower : String) : Nat :=
  (if hiringHit text_lower then 4 else 0)
    + (if qualityHit text_lower then 2 else 0)
    + (if locationHit text_lower then 2 else 0)
    + (if industryHit text_lower then 2 else 0)
    + (personaFold text_lower).1
    + (if boostHit text_lower then 2 else 0)
    + (if immediacyHit text_lower then 3 else 0)

/-- The body of the `for post in posts` loop of `filter_quality_leads`
(source lines 165-237): exclusion check, scoring, threshold test and
augmentation of the accepted record.  `none` means the post is skipped. -/
def scoreLead (post : Post) : Option Lead :=
  let text_lower := strLower post.text
  if exclusions.any (fun e => strIn e text_lower) then none
  else
    let score := postScore text_lower
    if score ≥ 4 then
      some { post := post
             quality_score := min score 10
             persona_matches := (personaFold text_lower).2
             search_terms_found :=
               (hiring_signals ++ quality_indicators).filter fun t => strIn t text_lower }
    else none

/-- The descending comparison used by `quality_leads.sort(key=..., reverse=True)`:
`a` may stay before `b` iff `a`'s score is at least `b`'s. -/
def leadGe (a b : Lead) : Prop := b.quality_score ≤ a.quality_score

instance : DecidableRel leadGe := fun a b => Nat.decLe b.quality_score a.quality_score

instance : IsTotal Lead leadGe :=
  ⟨fun a b => Nat.le_total b.quality_score a.quality_score⟩

instance : IsTrans Lead leadGe :=
  ⟨fun _ _ _ hab hbc => Nat.le_trans hbc hab⟩

/-- `filter_quality_leads` (source lines 161-241): score every post in
extraction order, keep those at or above the threshold, sort stably by
descending `quality_score` (Python's `list.sort` is stable, also with
`reverse=True`; modelled by the stable `List.insertionSort`) and return the
top 9. -/
def filter_quality_leads (posts : List Post) : List Lead :=
  ((posts.filterMap scoreLead).insertionSort leadGe).take 9

/-- One DOM element matched by `document.querySelectorAll('div[data-id]')` in
the `page.evaluate` script of `search_posts` (source lines 124-152):
`textContent` of the element, and the optional sub-elements' texts /
attributes (`none` when the selector finds nothing). -/
structure RawElement where
  textContent : String
  timeText : Option String
  authorText : Option String
  linkHref : Option String
  dataId : Option String
deriving DecidableEq, Repr

/-- The record pushed for one element at position `index` (source lines
138-144): text truncated to 500 chars, trimmed author/time defaulting to
"Unknown", url built from the href up to the first `?` (empty when no link
element was found), id defaulting to `post_<index>`. -/
def buildPost (index : Nat) (e : RawElement) : Post :=
  { text := strTake e.textContent 500
    author := match e.authorText with
      | some a => strTrim a
      | none => "Unknown"
    time := match e.timeText with
      | some t => strTrim t
      | none => "Unknown"
    url := match e.linkHref with
      | some h => "https://www.linkedin.com" ++ beforeQuestionMark h
      | none => ""
    id := match e.dataId with
      | some d => d
      | none => "post_" ++ toString index }

/-- The whole extraction script of `search_posts` (source lines 124-152):
`forEach` over the elements, skipping every index above 20 (`if (index > 20)
return`), then `posts.filter(post => post.url && post.text.length > 50)`. -/
def extractPosts (elements : List RawElement) : List Post :=
  ((elements.enum.filter fun ie => ie.1 ≤ 20).map fun ie => buildPost ie.1 ie.2).filter
    fun p => p.url != "" && decide (p.text.length > 50)

/-- Query rotation of `search_posts` (source lines 107-109):
`query_index = today.day % len(self.search_queries)`; the selected query is
a pure function of the calendar day of the month. -/
def selectQuery (day : Nat) : String :=
  search_queries.getD (day % search_queries.length) ""

/-- The environment one run interacts with: whether `login_to_linkedin`
succeeds, whether navigation/search raises (and the exception text), the
calendar day of the month used for query rotation, and the DOM elements the
search results page presents. -/
structure RunEnv where
  loginSucceeds : Bool
  navError : Option String
  day : Nat
  elements : List RawElement
deriving DecidableEq, Repr

/-- What `search_posts` produces (source lines 101-159): the extracted
posts, the query string returned for reporting (the first 50 chars of the
query plus "...", or "Search failed" from the `except` branch), and the
diagnostic snapshot artifact written during the call.  The `except` branch
(lines 157-159) only logs and returns; no code path in `search_posts`
writes a screenshot or any other artifact, so `snapshot` is always `none`. -/
structure SearchResult where
  posts : List Post
  queryUsed : String
  snapshot : Option String
deriving DecidableEq, Repr

/-- `search_posts` (source lines 101-159) over the run environment. -/
def search_posts (env : RunEnv) : SearchResult :=
  match env.navError with
  | some _ => { posts := [], queryUsed := "Search failed", snapshot := none }
  | none =>
    { posts := extractPosts env.elements
      queryUsed := strTake (selectQuery env.day) 50 ++ "..."
      snapshot := none }

/-- Observable outcome of `run_daily_search` (source lines 331-376):
whether the search/extraction step was attempted, the email notification
sent (`some (leads, query_used)` when `send_email` is called, `none`
otherwise), and any snapshot artifact written along the way. -/
structure RunResult where
  searched : Bool
  emailSent : Option (List Lead × String)
  snapshot : Option String
deriving DecidableEq, Repr

/-- `run_daily_search` (source lines 355-370): if `login_to_linkedin`
succeeds, run `search_posts`, filter the quality leads and send the email;
otherwise only log "Failed to login to LinkedIn" — no search and no email. -/
def run_daily_search (env : RunEnv) : RunResult :=
  if env.loginSucceeds then
    let sr := search_posts env
    let leads := filter_quality_leads sr.posts
    { searched := true, emailSent := some (leads, sr.queryUsed), snapshot := sr.snapshot }
  else
    { searched := false, emailSent := none, snapshot := none }

/-- Every lead in the digest comes from scoring some input post: membership
through `take`, the stable sort and `filterMap`. -/
lemma mem_filter_quality_leads {posts : List Post} {lead : Lead}
    (h : lead ∈ filter_quality_leads posts) :
    ∃ post, post ∈ posts ∧ scoreLead post = some lead := by
  unfold filter_quality_leads at h
  have h1 : lead ∈ (posts.filterMap scoreLead).insertionSort leadGe :=
    (List.take_sublist _ _).subset h
  have h2 : lead ∈ posts.filterMap scoreLead :=
    (List.perm_insertionSort leadGe _).subset h1
  exact List.mem_filterMap.1 h2

/-- Inversion of the loop body: an accepted post passed the exclusion check,
reached the threshold, and the lead is exactly the augmented record. -/
lemma scoreLead_eq_some {post : Post} {lead : Lead}
    (h : scoreLead post = some lead) :
    exclusions.any (fun e => strIn e (strLower post.text)) = false ∧
    4 ≤ postScore (strLower post.text) ∧
    lead = { post := post
             quality_score := min (postScore (strLower post.text)) 10
             persona_matches := (personaFold (strLower post.text)).2
             search_terms_found := (hiring_signals ++ quality_indicators).filter
               fun t => strIn t (strLower post.text) } := by
  simp only [scoreLead] at h
  by_cases h1 : exclusions.any (fun e => strIn e (strLower post.text)) = true
  · rw [if_pos h1] at h
    exact absurd h (by simp)
  · rw [if_neg h1] at h
    by_cases h2 : postScore (strLower post.text) ≥ 4
    · rw [if_pos h2] at h
      exact ⟨by simpa using h1, h2, (Option.some.inj h).symm⟩
    · rw [if_neg h2] at h
      exact absurd h (by simp)

/-- Leads of one common score are pairwise related by `leadGe`. -/
lemma pairwise_filter_score (s : Nat) (l : List Lead) :
    (l.filter fun ld => ld.quality_score == s).Pairwise leadGe := by
  induction l with
  | nil => simp
  | cons a l ih =>
    rw [List.filter_cons]
    by_cases h : (a.quality_score == s) = true
    · rw [if_pos h]
      refine List.Pairwise.cons (fun b hb => ?_) ih
      have hb' : (b.quality_score == s) = true := (List.mem_filter.1 hb).2
      have ha' : a.quality_score = s := by simpa using h
      have hb'' : b.quality_score = s := by simpa using hb'
      unfold leadGe
      omega
    · rw [if_neg h]
      exact ih

/-- Stability of the descending sort: for every score value the sorted
list restricted to that value is exactly the input restricted to it, in the
input's order. -/
lemma filter_insertionSort_score (s : Nat) (l : List Lead) :
    ((l.insertionSort leadGe).filter fun ld => ld.quality_score == s)
      = l.filter fun ld => ld.quality_score == s := by
  have hsub : (l.filter fun ld => ld.quality_score == s).Sublist (l.insertionSort leadGe) :=
    List.sublist_insertionSort (pairwise_filter_score s l) (List.filter_sublist l)
  have h2 := hsub.filter (fun ld => ld.quality_score == s)
  have h3 : ((l.filter fun ld => ld.quality_score == s).filter
      fun ld => ld.quality_score == s) = l.filter fun ld => ld.quality_score == s :=
    List.filter_eq_self.mpr fun a ha => (List.mem_filter.1 ha).2
  rw [h3] at h2
  have hlen : (((l.insertionSort leadGe).filter fun ld => ld.quality_score == s)).length
      = (l.filter fun ld => ld.quality_score == s).length :=
    ((List.perm_insertionSort leadGe l).filter _).length_eq
  exact (h2.eq_of_length hlen.symm).symm

/-- Counting bound for the extraction `forEach`: at most `m + 1 - k` of the
elements enumerated from index `k` have an index at most `m`. -/
lemma length_filter_enumFrom_le (m : Nat) :
    ∀ (l : List RawElement) (k : Nat),
      ((List.enumFrom k l).filter fun ie => ie.1 ≤ m).length ≤ m + 1 - k := by
  intro l
  induction l with
  | nil => intro k; simp
  | cons a l ih =>
    intro k
    rw [List.enumFrom_cons, List.filter_cons]
    by_cases h : k ≤ m
    · rw [if_pos (by simpa using h)]
      have := ih (k + 1)
      simp only [List.length_cons]
      omega
    · rw [if_neg (by simpa using h)]
      have := ih (k + 1)
      omega

/-- C1: every candidate whose text contains (case-insensitively) any phrase
from the fixed job-seeker exclusion list is never accepted by
`filter_quality_leads` and never appears in the output digest: no lead of
the digest has any exclusion phrase as a case-insensitive substring of its
text, regardless of which other signals occur in that text. -/
theorem C1_exclusion_precedence (posts : List Post) (lead : Lead)
    (h : lead ∈ filter_quality_leads posts) (e : String) (he : e ∈ exclusions) :
    strIn (strLower e) (strLower lead.post.text) = false := by
  obtain ⟨post, hp, hs⟩ := mem_filter_quality_leads h
  obtain ⟨hex, -, rfl⟩ := scoreLead_eq_some hs
  have hlow : strLower e = e := by
    have hall : ∀ x ∈ exclusions, strLower x = x := by decide
    exact hall e he
  rw [hlow]
  have hx := List.any_eq_false.mp hex e he
  simpa using hx

/-- Witness for C1 at a concrete accepted lead and exclusion phrase. -/
theorem C1_exclusion_precedence_witness :
    strIn (strLower "candidates")
      (strLower ({ post := { text := "hiring remote", author := "a", time := "t",
                             url := "u", id := "p1" },
                   quality_score := 6, persona_matches := [],
                   search_terms_found := ["hiring"] } : Lead).post.text) = false :=
  C1_exclusion_precedence
    [{ text := "hiring remote", author := "a", time := "t", url := "u", id := "p1" }]
    { post := { text := "hiring remote", author := "a", time := "t", url := "u", id := "p1" },
      quality_score := 6, persona_matches := [], search_terms_found := ["hiring"] }
    (by decide) "candidates" (by decide)

/-- C9: every lead retained by `filter_quality_leads` has a recorded
`quality_score` between 0 and 10 inclusive: the raw additive sum is clamped
with `min score 10` and is a sum of non-negative contributions. -/
theorem C9_score_bounded (posts : List Post) (lead : Lead)
    (h : lead ∈ filter_quality_leads posts) :
    0 ≤ lead.quality_score ∧ lead.quality_score ≤ 10 := by
  obtain ⟨post, hp, hs⟩ := mem_filter_quality_leads h
  obtain ⟨-, -, rfl⟩ := scoreLead_eq_some hs
  exact ⟨Nat.zero_le _, min_le_right _ _⟩

/-- Witness for C9 at a concrete accepted lead. -/
theorem C9_score_bounded_witness :
    0 ≤ ({ post := { text := "hiring remote", author := "a", time := "t",
                     url := "u", id := "p1" },
           quality_score := 6, persona_matches := [],
           search_terms_found := ["hiring"] } : Lead).quality_score ∧
    ({ post := { text := "hiring remote", author := "a", time := "t",
                 url := "u", id := "p1" },
       quality_score := 6, persona_matches := [],
       search_terms_found := ["hiring"] } : Lead).quality_score ≤ 10 :=
  C9_score_bounded
    [{ text := "hiring remote", author := "a", time := "t", url := "u", id := "p1" }]
    { post := { text := "hiring remote", author := "a", time := "t", url := "u", id := "p1" },
      quality_score := 6, persona_matches := [], search_terms_found := ["hiring"] }
    (by decide)

/-- C10: `filter_quality_leads` augments each accepted record with exactly
the three fields `quality_score`, `persona_matches` and `search_terms_found`
(computed from the record's own lowered text) and carries every original
extraction field unchanged: the lead's underlying post is an element of the
input list.  Rejected records do not appear in the output at all. -/
theorem C10_record_augmentation (posts : List Post) (lead : Lead)
    (h : lead ∈ filter_quality_leads posts) :
    lead.post ∈ posts ∧
    lead.quality_score = min (postScore (strLower lead.post.text)) 10 ∧
    lead.persona_matches = (personaFold (strLower lead.post.text)).2 ∧
    lead.search_terms_found = (hiring_signals ++ quality_indicators).filter
      (fun t => strIn t (strLower lead.post.text)) := by
  obtain ⟨post, hp, hs⟩ := mem_filter_quality_leads h
  obtain ⟨-, -, rfl⟩ := scoreLead_eq_some hs
  exact ⟨hp, rfl, rfl, rfl⟩

/-- Witness for C10 at a concrete accepted lead. -/
theorem C10_record_augmentation_witness :
    ({ post := { text := "hiring remote", author := "a", time := "t",
                 url := "u", id := "p1" },
       quality_score := 6, persona_matches := [],
       search_terms_found := ["hiring"] } : Lead).post ∈
      [({ text := "hiring remote", author := "a", time := "t", url := "u", id := "p1" } : Post)] ∧
    ({ post := { text := "hiring remote", author := "a", time := "t",
                 url := "u", id := "p1" },
       quality_score := 6, persona_matches := [],
       search_terms_found := ["hiring"] } : Lead).quality_score
      = min (postScore (strLower "hiring remote")) 10 ∧
    ({ post := { text := "hiring remote", author := "a", time := "t",
                 url := "u", id := "p1" },
       quality_score := 6, persona_matches := [],
       search_terms_found := ["hiring"] } : Lead).persona_matches
      = (personaFold (strLower "hiring remote")).2 ∧
    ({ post := { text := "hiring remote", author := "a", time := "t",
                 url := "u", id := "p1" },
       quality_score := 6, persona_matches := [],
       search_terms_found := ["hiring"] } : Lead).search_terms_found
      = (hiring_signals ++ quality_indicators).filter
          (fun t => strIn t (strLower "hiring remote")) :=
  C10_record_augmentation
    [{ text := "hiring remote", author := "a", time := "t", url := "u", id := "p1" }]
    { post := { text := "hiring remote", author := "a", time := "t", url := "u", id := "p1" },
      quality_score := 6, persona_matches := [], search_terms_found := ["hiring"] }
    (by decide)

/-- C4: the digest produced by `filter_quality_leads` is non-increasing in
`quality_score` (`leadGe` pairwise); for every score value, the digest's
leads with that score form a prefix of the accepted leads with that score
in extraction order (the sort is stable and truncation keeps a prefix); and
the digest never holds more than 9 leads. -/
theorem C4_ranking_stability (posts : List Post) (s : Nat) :
    List.Pairwise leadGe (filter_quality_leads posts) ∧
    ((filter_quality_leads posts).filter fun ld => ld.quality_score == s) <+:
      ((posts.filterMap scoreLead).filter fun ld => ld.quality_score == s) ∧
    (filter_quality_leads posts).length ≤ 9 := by
  refine ⟨?_, ?_, ?_⟩
  · have hs := List.sorted_insertionSort leadGe (posts.filterMap scoreLead)
    exact List.Pairwise.sublist (List.take_sublist _ _) hs
  · unfold filter_quality_leads
    have hpre : ((((posts.filterMap scoreLead).insertionSort leadGe).take 9).filter
        fun ld => ld.quality_score == s) <+:
        (((posts.filterMap scoreLead).insertionSort leadGe).filter
          fun ld => ld.quality_score == s) := by
      refine ⟨(((posts.filterMap scoreLead).insertionSort leadGe).drop 9).filter
        (fun ld => ld.quality_score == s), ?_⟩
      rw [← List.filter_append, List.take_append_drop]
    rw [filter_insertionSort_score] at hpre
    exact hpre
  · unfold filter_quality_leads
    exact List.length_take_le _ _

/-- C5: every record returned by the extraction script has a non-empty url
and body text longer than 50 characters (shorter or link-less records are
dropped before scoring), and the number of returned records is bounded by
21 (`if (index > 20) return` keeps indices 0..20) no matter how many post
elements the page presents. -/
theorem C5_extraction_eligibility (elements : List RawElement) :
    (∀ p ∈ extractPosts elements, p.url ≠ "" ∧ 50 < p.text.length) ∧
    (extractPosts elements).length ≤ 21 := by
  constructor
  · intro p hp
    have h := (List.mem_filter.1 hp).2
    rw [Bool.and_eq_true] at h
    exact ⟨bne_iff_ne.mp h.1, of_decide_eq_true h.2⟩
  · unfold extractPosts
    have h1 : (((elements.enum.filter fun ie => ie.1 ≤ 20).map
        fun ie => buildPost ie.1 ie.2).filter
          fun p => p.url != "" && decide (p.text.length > 50)).length
        ≤ ((elements.enum.filter fun ie => ie.1 ≤ 20).map
            fun ie => buildPost ie.1 ie.2).length :=
      List.length_filter_le _ _
    rw [List.length_map] at h1
    have h2 := length_filter_enumFrom_le 20 elements 0
    rw [← List.enum_eq_enumFrom] at h2
    omega

/-- Witness for C5 at a concrete element list and extracted record. -/
theorem C5_extraction_eligibility_witness :
    (({ text := "0123456789012345678901234567890123456789012345678901234567890",
        author := "Acme", time := "2h",
        url := "https://www.linkedin.com/posts/abc", id := "d1" } : Post).url ≠ "" ∧
      50 < ({ text := "0123456789012345678901234567890123456789012345678901234567890",
              author := "Acme", time := "2h",
              url := "https://www.linkedin.com/posts/abc", id := "d1" } : Post).text.length) ∧
    (extractPosts [{ textContent := "0123456789012345678901234567890123456789012345678901234567890",
                     timeText := some " 2h ", authorText := some " Acme ",
                     linkHref := some "/posts/abc?utm=1", dataId := some "d1" }]).length ≤ 21 :=
  ⟨(C5_extraction_eligibility
      [{ textContent := "0123456789012345678901234567890123456789012345678901234567890",
         timeText := some " 2h ", authorText := some " Acme ",
         linkHref := some "/posts/abc?utm=1", dataId := some "d1" }]).1
      { text := "0123456789012345678901234567890123456789012345678901234567890",
        author := "Acme", time := "2h",
        url := "https://www.linkedin.com/posts/abc", id := "d1" }
      (by decide),
   (C5_extraction_eligibility
      [{ textContent := "0123456789012345678901234567890123456789012345678901234567890",
         timeText := some " 2h ", authorText := some " Acme ",
         linkHref := some "/posts/abc?utm=1", dataId := some "d1" }]).2⟩

/-- C6 counterexample: with authentication failing, `run_daily_search`
emits no notification at all — `emailSent = none` — contradicting the
claim that a zero-lead digest carrying the authentication-failure reason is
still emitted (the `else` branch at source line 369-370 only logs). -/
theorem C6_counterexample :
    (run_daily_search { loginSucceeds := false, navError := none, day := 5,
                        elements := [] }).emailSent = none ∧
    (run_daily_search { loginSucceeds := false, navError := none, day := 5,
                        elements := [] }).searched = false := by
  decide

/-- C6 (amended): whenever authentication fails, the run performs no
search/extraction step, and it also emits no notification of any kind — the
run only logs the failure and terminates. -/
theorem C6_auth_failure (env : RunEnv) (h : env.loginSucceeds = false) :
    (run_daily_search env).searched = false ∧
    (run_daily_search env).emailSent = none := by
  unfold run_daily_search
  rw [h]
  simp

/-- Witness for the amended C6 at a concrete environment. -/
theorem C6_auth_failure_witness :
    (run_daily_search { loginSucceeds := false, navError := none, day := 5,
                        elements := [] }).searched = false ∧
    (run_daily_search { loginSucceeds := false, navError := none, day := 5,
                        elements := [] }).emailSent = none :=
  C6_auth_failure { loginSucceeds := false, navError := none, day := 5, elements := [] } rfl

/-- C7 counterexample: on a navigation/search failure no diagnostic
snapshot artifact is written (`search_posts` has no code path that writes
one; the `except` branch at lines 157-159 only logs), and the zero-lead
digest carries the fixed string "Search failed" rather than the error
text. -/
theorem C7_counterexample :
    (run_daily_search { loginSucceeds := true, navError := some "net::ERR 42", day := 5,
                        elements := [] }).snapshot = none ∧
    (run_daily_search { loginSucceeds := true, navError := some "net::ERR 42", day := 5,
                        elements := [] }).emailSent = some ([], "Search failed") ∧
    ("Search failed" : String) ≠ "net::ERR 42" := by
  decide

/-- C7 (amended): no run ever writes a diagnostic snapshot artifact (on
failure, on zero-result extraction, or otherwise), and on extraction
failure the run continues and emits a zero-lead digest whose failure reason
is the fixed string "Search failed", not the error text. -/
theorem C7_extraction_failure :
    (∀ env : RunEnv, (run_daily_search env).snapshot = none) ∧
    (∀ env : RunEnv, env.loginSucceeds = true → ∀ e, env.navError = some e →
      (run_daily_search env).emailSent = some ([], "Search failed")) := by
  constructor
  · intro env
    cases h : env.loginSucceeds <;>
      cases hn : env.navError <;>
        simp [run_daily_search, search_posts, h, hn]
  · intro env h e he
    simp [run_daily_search, search_posts, h, he, filter_quality_leads]

/-- Witness for the amended C7 at a concrete environment. -/
theorem C7_extraction_failure_witness :
    (run_daily_search { loginSucceeds := true, navError := some "boom", day := 1,
                        elements := [] }).snapshot = none ∧
    (run_daily_search { loginSucceeds := true, navError := some "boom", day := 1,
                        elements := [] }).emailSent = some ([], "Search failed") :=
  ⟨C7_extraction_failure.1 _, C7_extraction_failure.2 _ rfl "boom" rfl⟩

/-- C8: query selection is a pure function of the calendar day of the
month (`today.day % len(search_queries)`): any two days with the same
residue select the same query variant, and over one calendar-month cycle
(days 1..31) every variant of the pool is selected at least once (pool size
4 is at most the cycle length). -/
theorem C8_query_rotation :
    (∀ d₁ d₂ : Nat, d₁ % search_queries.length = d₂ % search_queries.length →
      selectQuery d₁ = selectQuery d₂) ∧
    (∀ i, i < search_queries.length →
      ∃ d, 1 ≤ d ∧ d ≤ 31 ∧ selectQuery d = search_queries.getD i "") := by
  constructor
  · intro d₁ d₂ h
    unfold selectQuery
    rw [h]
  · intro i hi
    have h4 : search_queries.length = 4 := rfl
    rw [h4] at hi
    interval_cases i
    · exact ⟨4, by norm_num, by norm_num, rfl⟩
    · exact ⟨1, by norm_num, by norm_num, rfl⟩
    · exact ⟨2, by norm_num, by norm_num, rfl⟩
    · exact ⟨3, by norm_num, by norm_num, rfl⟩

/-- Witness for C8: days 3 and 7 share a residue and select the same
variant; variant 2 of the pool is selected on some day of the cycle. -/
theorem C8_query_rotation_witness :
    selectQuery 3 = selectQuery 7 ∧
    (∃ d, 1 ≤ d ∧ d ≤ 31 ∧ selectQuery d = search_queries.getD 2 "") :=
  ⟨C8_query_rotation.1 3 7 (by decide), C8_query_rotation.2 2 (by decide)⟩

/-- C2, evaluated at the failing input: the geography category's member
term `EU` occurs case-insensitively in the text "Hiring in the EU"
(lowered: "hiring in the eu"), and the case-insensitive reading of the
signal table (`locationHitCaseInsensitive`) fires, yet the code's check
(`locationHit`, which compares the terms verbatim against the lowered
text) does not: upper-case listed terms `EU`, `WFH`, `CET`, `GMT` can
never match, so the lead is scored 4 instead of 6. -/
theorem C2_uppercase_terms_never_match :
    "EU" ∈ location_indicators ∧
    strIn (strLower "EU") (strLower "Hiring in the EU") = true ∧
    locationHitCaseInsensitive (strLower "Hiring in the EU") = true ∧
    locationHit (strLower "Hiring in the EU") = false ∧
    filter_quality_leads [{ text := "Hiring in the EU", author := "a", time := "t",
                            url := "u", id := "p1" }]
      = [{ post := { text := "Hiring in the EU", author := "a", time := "t",
                     url := "u", id := "p1" },
           quality_score := 4, persona_matches := [],
           search_terms_found := ["hiring"] }] := by
  decide

/-- C3 counterexample: the text "role" matches a member term of the
hiring-intent category and of no other category, no persona keyword, and
no boost list, yet its total score is 4, which meets the acceptance
threshold (`score >= 4`), so the candidate is accepted — the hiring-intent
weight alone is sufficient. -/
theorem C3_counterexample :
    hiringHit "role" = true ∧ qualityHit "role" = false ∧
    locationHit "role" = false ∧ industryHit "role" = false ∧
    (personaFold "role").1 = 0 ∧ boostHit "role" = false ∧
    immediacyHit "role" = false ∧
    postScore "role" = 4 ∧
    (filter_quality_leads [{ text := "role", author := "a", time := "t",
                             url := "u", id := "p1" }]).length = 1 := by
  decide

/-- C3 (amended): for a candidate matching member terms of at most one
signal category, no persona keywords and not the hiring-intent category,
the total score stays below the acceptance threshold 4; the hiring-intent
category is the exception — alone it scores exactly 4, which meets the
threshold. -/
theorem C3_single_category_below_threshold :
    (∀ t : String, hiringHit t = false → (personaFold t).1 = 0 →
      (if qualityHit t then (1 : Nat) else 0) + (if locationHit t then 1 else 0)
        + (if industryHit t then 1 else 0) + (if boostHit t then 1 else 0)
        + (if immediacyHit t then 1 else 0) ≤ 1 →
      postScore t < 4) ∧
    (∀ t : String, hiringHit t = true → qualityHit t = false →
      locationHit t = false → industryHit t = false → (personaFold t).1 = 0 →
      boostHit t = false → immediacyHit t = false → postScore t = 4) := by
  constructor
  · intro t h1 h2 h3
    unfold postScore
    cases hq : qualityHit t <;> cases hl : locationHit t <;>
      cases hind : industryHit t <;> cases hb : boostHit t <;>
        cases him : immediacyHit t <;>
          simp [h1, h2, hq, hl, hind, hb, him] at h3 ⊢
  · intro t h1 h2 h3 h4 h5 h6 h7
    unfold postScore
    rw [h1, h2, h3, h4, h5, h6, h7]
    simp

/-- Witness for the amended C3: "flexible" matches only the
quality/urgency category and scores below the threshold; "role" matches
only the hiring-intent category and scores exactly 4. -/
theorem C3_single_category_below_threshold_witness :
    postScore "flexible" < 4 ∧ postScore "role" = 4 :=
  ⟨C3_single_category_below_threshold.1 "flexible" (by decide) (by decide) (by decide),
   C3_single_category_below_threshold.2 "role" (by decide) (by decide) (by decide)
     (by decide) (by decide) (by decide) (by decide)⟩
